import Mathlib

/-!
Shallow embedding of the MRP planning core in `src/backend/calculator.py`
(rpk-sidecar, "Motor MRP V2.0").

Modelling conventions:
* Python floats are modelled as exact rationals (`ℚ`); Python ints as `Int`.
* Datetimes are modelled at day granularity as integers (day numbers);
  `datetime.now()` is the explicit parameter `now`, and `timedelta(days=30)`
  is `+ 30`.  `(fecha_objetivo - ahora).days` becomes integer subtraction.
* Python dicts with `.get(k, default)` are modelled as total functions
  (default built in) or as `Option`-valued lookups; the mutable accumulator
  dict `carga_maquina` / `carga_total` is modelled as an insertion-ordered
  association list (`dictAdd` / `lookupD`), matching dict update semantics.
* Python's `sorted` / `list.sort` (Timsort, stable) is modelled by
  `List.insertionSort`, which is stable for the same key relation; a stable
  sort w.r.t. a total preorder is uniquely determined by its input, so the
  two agree elementwise.
* `round(x, n)` (Python 3 float rounding, ties to even) is modelled as exact
  half-to-even rounding of the rational at `n` decimal digits.
-/

namespace Calculator

/-- One demand line for an article, as prepared by `calculate_scenarios`
(quantity after the scale factor, optional due date as a day number, and
the originating order reference). -/
structure Demanda where
  cantidad : ℚ
  fecha_entrega : Option Int
  pedido : String
  deriving DecidableEq

/-- One routing operation for an article (one row of `rutas_ops` as stored
by `_prepare_context`): work center, phase number, setup minutes, hourly
production rate. -/
structure RutaOp where
  centro : String
  fase : Int
  t_prep : ℚ
  prod_horaria : ℚ
  deriving DecidableEq

/-- Lot policy entry for an article (one row of `puntos_lotes` as stored by
`_prepare_context`): lot size, reorder point, raw-material reference. -/
structure LoteInfo where
  lote : ℚ
  punto_pedido : ℚ
  mp : String
  deriving DecidableEq

/-- Capacity record of a work center (`capacidad_centros` as stored by
`_prepare_context`): hours per day and shift count. -/
structure Capacidad where
  horas : ℚ
  turnos : Int
  deriving DecidableEq

/-- The read-only context produced by `_prepare_context`.  Each field models
the corresponding dict together with its `.get` default: `stock` defaults
to `0`, `rutas` to `[]`, `wip` to `0` per phase; `lotes` and `capacidad`
keep the whole-record default at the use site. -/
structure Context where
  stock : String → ℚ
  rutas : String → List RutaOp
  lotes : String → Option LoteInfo
  capacidad : String → Option Capacidad
  wip : String → Int → ℚ

/-- A planned production order, as emitted by `_calculate_article_mrp` /
`_orden_generica`.  The generic (unrouted) fallback order has no
`fecha_entrega` and no `mp` key in the source dict, hence the `Option`
fields.  `orden` is the 1-based sequence index assigned at the end of
`calculate_scenarios` (0 until assigned). -/
structure Orden where
  numero_of : String
  articulo : String
  centro : String
  fase : Int
  cantidad : ℚ
  fecha_entrega : Option Int
  estado : String
  dias_restantes : Int
  carga_horas : ℚ
  mp : Option String
  orden : Nat
  deriving DecidableEq

/-- Result of the per-article worker: planned orders plus the per-center
load contribution (`{"ordenes": [...], "carga": {...}}`). -/
structure ArticleResult where
  ordenes : List Orden
  carga : List (String × ℚ)
  deriving DecidableEq

/-- Python dict accumulation `m[c] += h` on a `defaultdict(float)`,
modelled on an insertion-ordered association list: update in place if the
key exists, else append. -/
def dictAdd : List (String × ℚ) → String → ℚ → List (String × ℚ)
  | [], c, h => [(c, h)]
  | (k, v) :: rest, c, h =>
    if k = c then (k, v + h) :: rest else (k, v) :: dictAdd rest c h

/-- Lookup in the association list with the `defaultdict(float)` default 0. -/
def lookupD : List (String × ℚ) → String → ℚ
  | [], _ => 0
  | (k, v) :: rest, c => if k = c then v else lookupD rest c

/-- Half-to-even ("banker's") rounding of a rational to an integer, the
rounding rule of Python 3's `round`. -/
def roundHalfToEven (q : ℚ) : Int :=
  let f := ⌊q⌋
  if q - f < 1 / 2 then f
  else if 1 / 2 < q - f then f + 1
  else if f % 2 = 0 then f else f + 1

/-- Python `round(q, n)` on exact rationals. -/
def pyRound (n : Nat) (q : ℚ) : ℚ :=
  (roundHalfToEven (q * 10 ^ n) : ℚ) / 10 ^ n

/-- `sum(d["cantidad"] for d in demandas)`. -/
def totalDemanda (demandas : List Demanda) : ℚ :=
  (demandas.map (·.cantidad)).sum

/-- Step 3 of `_calculate_article_mrp` (lines 190-199): the net
finished-goods requirement against stock and reorder point.
`necesidad_neta_fg` starts at 0; if the projected stock is below the
reorder point it becomes `abs(min(0, stock_proyectado))`, with the
fallback `total_demanda - stock_fg if stock_fg < total_demanda else 0`
when that is non-positive. -/
def necesidadNetaFG (stock_fg total_demanda punto_pedido : ℚ) : ℚ :=
  let stock_proyectado := stock_fg - total_demanda
  if stock_proyectado < punto_pedido then
    let n := |min 0 stock_proyectado|
    if n ≤ 0 then
      if stock_fg < total_demanda then total_demanda - stock_fg else 0
    else n
  else 0

/-- Key relation of `sorted(rutas, key=lambda x: x["fase"], reverse=True)`:
descending phase number. -/
def faseGe (a b : RutaOp) : Prop := b.fase ≤ a.fase

/-- Key relation of `sorted(rutas, key=lambda x: x["fase"])`: ascending
phase number. -/
def faseLe (a b : RutaOp) : Prop := a.fase ≤ b.fase

instance : DecidableRel faseGe := fun a b => Int.decLe b.fase a.fase

instance : DecidableRel faseLe := fun a b => Int.decLe a.fase b.fase

instance : IsTotal RutaOp faseGe := ⟨fun a b => le_total b.fase a.fase⟩

instance : IsTrans RutaOp faseGe := ⟨fun _ _ _ h1 h2 => le_trans h2 h1⟩

instance : IsTotal RutaOp faseLe := ⟨fun a b => le_total a.fase b.fase⟩

instance : IsTrans RutaOp faseLe := ⟨fun _ _ _ h1 h2 => le_trans h1 h2⟩

/-- One step of the backward pass (lines 216-224): the entry need of a
phase is what is asked from it minus the WIP already staged there, floored
at zero (`necesidad_entrada = max(0, necesidad_arrastre - wip_en_fase)`). -/
def backwardStep (wip_per_fase : Int → ℚ) (necesidad_arrastre : ℚ) (op : RutaOp) : ℚ :=
  max 0 (necesidad_arrastre - wip_per_fase op.fase)

/-- The whole backward pass over the reversed route: fold `backwardStep`
starting from the net finished-goods requirement. -/
def backwardPass (wip_per_fase : Int → ℚ) (rutas_reversed : List RutaOp) (n0 : ℚ) : ℚ :=
  rutas_reversed.foldl (backwardStep wip_per_fase) n0

/-- Step 5 of `_calculate_article_mrp` (lines 233-237): lot rounding at the
head phase.  `math.ceil` on a rational is `Int.ceil`. -/
def cantidadLanzamiento (necesidad_cabecera lote_std : ℚ) : ℚ :=
  if 0 < lote_std then (⌈necesidad_cabecera / lote_std⌉ : ℚ) * lote_std
  else necesidad_cabecera

/-- `t_ejecucion = (flujo_cantidad / prod_horaria * 60) if prod_horaria > 0
else 0` (line 257). -/
def tEjecucion (flujo_cantidad : ℚ) (op : RutaOp) : ℚ :=
  if 0 < op.prod_horaria then flujo_cantidad / op.prod_horaria * 60 else 0

/-- `carga_horas = (t_prep + t_ejecucion) / 60` (line 258). -/
def cargaHorasOp (flujo_cantidad : ℚ) (op : RutaOp) : ℚ :=
  (op.t_prep + tEjecucion flujo_cantidad op) / 60

/-- The planned-order dict appended for one phase in the forward pass
(lines 260-271).  `carga_horas` is stored rounded to 2 decimals; the
accumulation into `carga_maquina` uses the unrounded value. -/
def mkOrden (articulo mp : String) (fecha_objetivo dias_restantes : Int)
    (estado : String) (flujo_cantidad : ℚ) (op : RutaOp) : Orden :=
  { numero_of := "OF-SIM-" ++ articulo ++ "-" ++ toString op.fase
    articulo := articulo
    centro := op.centro
    fase := op.fase
    cantidad := flujo_cantidad
    fecha_entrega := some fecha_objetivo
    estado := estado
    dias_restantes := dias_restantes
    carga_horas := pyRound 2 (cargaHorasOp flujo_cantidad op)
    mp := some mp
    orden := 0 }

/-- The load accumulation of one forward-pass iteration (lines 273-275):
`if centro: carga_maquina[centro] += carga_horas` — only a non-empty
center name accumulates. -/
def cargaStep (flujo_cantidad : ℚ) (acc : List (String × ℚ)) (op : RutaOp) :
    List (String × ℚ) :=
  if op.centro = "" then acc else dictAdd acc op.centro (cargaHorasOp flujo_cantidad op)

/-- One iteration of the forward pass loop (lines 249-275): if the flow
quantity is positive, append the order for this phase and accumulate the
unrounded load hours via `cargaStep`. -/
def fwdStep (articulo mp : String) (fecha_objetivo dias_restantes : Int)
    (estado : String) (flujo_cantidad : ℚ)
    (acc : List Orden × List (String × ℚ)) (op : RutaOp) :
    List Orden × List (String × ℚ) :=
  if 0 < flujo_cantidad then
    (acc.1 ++ [mkOrden articulo mp fecha_objetivo dias_restantes estado flujo_cantidad op],
     cargaStep flujo_cantidad acc.2 op)
  else acc

/-- The forward pass (step 6, lines 239-275): fold `fwdStep` over the
ascending route, starting from empty orders and empty center load. -/
def forwardPass (articulo mp : String) (fecha_objetivo dias_restantes : Int)
    (estado : String) (flujo_cantidad : ℚ) (rutas_asc : List RutaOp) :
    List Orden × List (String × ℚ) :=
  rutas_asc.foldl (fwdStep articulo mp fecha_objetivo dias_restantes estado flujo_cantidad) ([], [])

/-- `_orden_generica` (lines 283-297): the fallback result when the article
has no route.  The emitted dict has no `fecha_entrega` and no `mp` key,
and the returned `carga` is empty. -/
def ordenGenerica (articulo : String) (cantidad : ℚ) (_fecha : Int) : ArticleResult :=
  { ordenes := [{
      numero_of := "OF-ERR-" ++ articulo
      articulo := articulo
      centro := "SIN_RUTA"
      fase := 0
      cantidad := cantidad
      fecha_entrega := none
      estado := "ERROR_RUTA"
      dias_restantes := 0
      carga_horas := 0
      mp := none
      orden := 0 }]
    carga := [] }

/-- `{"ordenes": [], "carga": {}}`. -/
def emptyResult : ArticleResult := ⟨[], []⟩

/-- `_calculate_article_mrp` (lines 159-280): the per-article MRP worker.
Group total demand; net against finished-goods stock and reorder point;
backward pass over the phase-descending route netting staged WIP; lot
rounding at the head phase; forward pass emitting one order per phase and
accumulating per-center load. -/
def calculateArticleMrp (now : Int) (articulo : String) (demandas : List Demanda)
    (context : Context) : ArticleResult :=
  let total_demanda := totalDemanda demandas
  if total_demanda ≤ 0 then emptyResult
  else
    let fechas_validas := demandas.filterMap (·.fecha_entrega)
    let fecha_objetivo := fechas_validas.min?.getD (now + 30)
    let stock_fg := context.stock articulo
    let rutas := context.rutas articulo
    let wip_per_fase := context.wip articulo
    let lote_info := (context.lotes articulo).getD ⟨0, 0, ""⟩
    let lote_std := lote_info.lote
    let punto_pedido := lote_info.punto_pedido
    let necesidad_neta_fg := necesidadNetaFG stock_fg total_demanda punto_pedido
    if necesidad_neta_fg ≤ 0 then emptyResult
    else
      let rutas_reversed := rutas.insertionSort faseGe
      if rutas = [] then ordenGenerica articulo necesidad_neta_fg fecha_objetivo
      else
        let necesidad_cabecera := backwardPass wip_per_fase rutas_reversed necesidad_neta_fg
        if necesidad_cabecera ≤ 0 then emptyResult
        else
          let cantidad_lanzamiento := cantidadLanzamiento necesidad_cabecera lote_std
          let rutas_asc := rutas.insertionSort faseLe
          let dias_restantes := fecha_objetivo - now
          let estado := if dias_restantes < 7 then "URGENTE" else "NORMAL"
          let fp := forwardPass articulo lote_info.mp fecha_objetivo dias_restantes estado
            cantidad_lanzamiento rutas_asc
          ⟨fp.1, fp.2⟩

/-- One worker tuple of `calculate_scenarios`: `(art, demandas_por_articulo[art])`
(the shared context is passed separately). -/
structure WorkerArgs where
  articulo : String
  demandas : List Demanda
  deriving DecidableEq

/-- Merging one worker result into the accumulated output (lines 362-365 /
370-372): `all_ordenes.extend(result["ordenes"])` and
`carga_total[c] += h` for each center. -/
def mergeStep (acc : List Orden × List (String × ℚ)) (res : ArticleResult) :
    List Orden × List (String × ℚ) :=
  (acc.1 ++ res.ordenes, res.carga.foldl (fun m p => dictAdd m p.1 p.2) acc.2)

/-- The parallel path (lines 360-365): `executor.map` yields the worker
results in the order of `worker_args`; the loop then merges them in that
order. -/
def runParallel (now : Int) (context : Context) (worker_args : List WorkerArgs) :
    List Orden × List (String × ℚ) :=
  (worker_args.map fun a => calculateArticleMrp now a.articulo a.demandas context).foldl
    mergeStep ([], [])

/-- Behavior of the pool iteration of lines 360-365 on one batch: either
every worker result is yielded (in `worker_args` order) and the try block
finishes, or the pool mechanism raises after the first `k` results were
yielded and merged (e.g. a `BrokenProcessPool` between two chunksize-50
chunks). -/
inductive PoolRun where
  | completes : PoolRun
  | raisesAfter (k : Nat) (e : String) : PoolRun

/-- The whole merge phase of `calculate_scenarios` (lines 353-372) for
pure workers, over the shared accumulators `all_ordenes` / `carga_total`
(initialised empty at lines 354-355 and never cleared): the try block
merges every result the pool yields; when the pool mechanism raises after
`k` merged results, the except block re-runs the full batch sequentially,
extending the same accumulators. -/
def mergePhase (now : Int) (context : Context) (run : PoolRun)
    (worker_args : List WorkerArgs) : List Orden × List (String × ℚ) :=
  match run with
  | .completes => runParallel now context worker_args
  | .raisesAfter k _ =>
    worker_args.foldl
      (fun acc a => mergeStep acc (calculateArticleMrp now a.articulo a.demandas context))
      (((worker_args.take k).map
          fun a => calculateArticleMrp now a.articulo a.demandas context).foldl
        mergeStep ([], []))

/-- The try-block iteration of the `executor.map` results (lines 362-365)
when the per-article computation itself may raise (Python exceptions
modelled as `Except`): each yielded result is merged into the shared
accumulators; the first raised exception stops the iteration, keeping
what was already merged. -/
def mergeFutures (calcA : WorkerArgs → Except String ArticleResult) :
    List WorkerArgs → List Orden × List (String × ℚ) →
    (List Orden × List (String × ℚ)) × Option String
  | [], acc => (acc, none)
  | a :: rest, acc =>
    match calcA a with
    | .ok r => mergeFutures calcA rest (mergeStep acc r)
    | .error e => (acc, some e)

/-- The except-block loop (lines 368-372) when the per-article computation
may raise: re-run every article sequentially, extending the accumulators
already filled by the try block (they are not cleared); the loop body has
no handler, so the first exception propagates out of
`calculate_scenarios`. -/
def runSequentialE (calcA : WorkerArgs → Except String ArticleResult)
    (worker_args : List WorkerArgs) (acc : List Orden × List (String × ℚ)) :
    Except String (List Orden × List (String × ℚ)) :=
  worker_args.foldlM (fun acc a => (calcA a).map (mergeStep acc)) acc

/-- The try/except structure of lines 359-372 over the shared
accumulators: merge the results the pool yields; if an exception
surfaced, fall back to the sequential re-run of the full batch on top of
the retained partial output. -/
def orchestrate (calcA : WorkerArgs → Except String ArticleResult)
    (worker_args : List WorkerArgs) : Except String (List Orden × List (String × ℚ)) :=
  match mergeFutures calcA worker_args ([], []) with
  | (acc, none) => .ok acc
  | (acc, some _) => runSequentialE calcA worker_args acc

/-- A saturation report row (lines 384-390). -/
structure SatRow where
  centro : String
  horas_requeridas : ℚ
  capacidad_disponible : ℚ
  saturacion_pct : ℚ
  es_cuello_botella : Bool
  deriving DecidableEq

/-- `cap_dict.get(centro, {"horas": 8, "turnos": 1})` (line 379). -/
def capacidadLookup (capacidad : String → Option Capacidad) (centro : String) : Capacidad :=
  (capacidad centro).getD ⟨8, 1⟩

/-- `cap_disp = cap["horas"] * (cap["turnos"] + extra) * horizonte_dias`
(lines 380-381), with `extra = 1` iff the extra-shift flag is set. -/
def capDisponible (cap : Capacidad) (turno_extra : Bool) (horizonte_dias : Int) : ℚ :=
  cap.horas * ((cap.turnos : ℚ) + (if turno_extra then 1 else 0)) * (horizonte_dias : ℚ)

/-- `sat_pct = (horas_req / cap_disp * 100) if cap_disp > 0 else 0`
(line 383). -/
def satPct (horas_req cap_disp : ℚ) : ℚ :=
  if 0 < cap_disp then horas_req / cap_disp * 100 else 0

/-- One saturation row (lines 378-390), for one `(centro, horas_req)` item
of the accumulated center load.  The displayed fields are rounded to one
decimal; the bottleneck flag compares the unrounded percentage. -/
def mkSatRow (capacidad : String → Option Capacidad) (turno_extra : Bool)
    (horizonte_dias : Int) (p : String × ℚ) : SatRow :=
  let cap := capacidadLookup capacidad p.1
  let cap_disp := capDisponible cap turno_extra horizonte_dias
  let sat_pct := satPct p.2 cap_disp
  { centro := p.1
    horas_requeridas := pyRound 1 p.2
    capacidad_disponible := pyRound 1 cap_disp
    saturacion_pct := pyRound 1 sat_pct
    es_cuello_botella := decide (100 < sat_pct) }

/-- Key relation of `saturacion_list.sort(key=..., reverse=True)`:
descending stored saturation percentage. -/
def satGe (a b : SatRow) : Prop := b.saturacion_pct ≤ a.saturacion_pct

instance : DecidableRel satGe := fun a b => Rat.instDecidableLe b.saturacion_pct a.saturacion_pct

instance : IsTotal SatRow satGe := ⟨fun a b => le_total b.saturacion_pct a.saturacion_pct⟩

instance : IsTrans SatRow satGe := ⟨fun _ _ _ h1 h2 => le_trans h2 h1⟩

/-- Step 4 of `calculate_scenarios` (lines 374-393): one row per center
with accumulated load, sorted by descending saturation percentage. -/
def saturacionList (capacidad : String → Option Capacidad) (turno_extra : Bool)
    (horizonte_dias : Int) (carga_total : List (String × ℚ)) : List SatRow :=
  (carga_total.map (mkSatRow capacidad turno_extra horizonte_dias)).insertionSort satGe

/-- `x.get("estado") == "NORMAL"`, the first component of the final sort
key (line 394): `False` (non-NORMAL, i.e. urgent or error) sorts first. -/
def normFlag (o : Orden) : Bool := o.estado == "NORMAL"

/-- The final sort key relation (line 394): ascending lexicographic order
on the pair `(estado == "NORMAL", dias_restantes)`. -/
def ordenLe (a b : Orden) : Prop :=
  (normFlag a = normFlag b ∧ a.dias_restantes ≤ b.dias_restantes) ∨
    (normFlag a = false ∧ normFlag b = true)

instance : DecidableRel ordenLe := fun a b => by unfold ordenLe; exact inferInstance

instance : IsTotal Orden ordenLe :=
  ⟨fun a b => by
    unfold ordenLe
    rcases h : normFlag a <;> rcases h' : normFlag b <;>
      rcases le_total a.dias_restantes b.dias_restantes with hd | hd <;> simp [hd]⟩

instance : IsTrans Orden ordenLe :=
  ⟨fun a b c h1 h2 => by
    unfold ordenLe at h1 h2 ⊢
    rcases h1 with ⟨e1, d1⟩ | ⟨f1, t1⟩ <;> rcases h2 with ⟨e2, d2⟩ | ⟨f2, t2⟩
    · exact Or.inl ⟨e1.trans e2, d1.trans d2⟩
    · exact Or.inr ⟨e1.trans f2, t2⟩
    · exact Or.inr ⟨f1, e2 ▸ t1⟩
    · exact Or.inr ⟨f1, t2⟩⟩

/-- `all_ordenes.sort(key=lambda x: (x.get("estado") == "NORMAL",
x.get("dias_restantes", 999)))` (line 394): stable sort by `ordenLe`. -/
def sortOrdenes (l : List Orden) : List Orden := l.insertionSort ordenLe

/-- `for i, o in enumerate(all_ordenes): o["orden"] = i + 1`
(lines 397-398): assign the 1-based sequence index. -/
def asignarSecuencia (l : List Orden) : List Orden :=
  l.enum.map fun p => { p.2 with orden := p.1 + 1 }

/-- One raw WIP row (the fields of `wip_df` read at lines 136-138, already
coerced to their numeric types). -/
structure WipRecord where
  articulo : String
  fase : Int
  cantidad : ℚ
  deriving DecidableEq

/-- One iteration of the WIP loop (line 139):
`wip_dict[art][fase] += cant` on the nested `defaultdict(float)`. -/
def wipAdd (m : String → Int → ℚ) (r : WipRecord) : String → Int → ℚ :=
  fun a f => if a = r.articulo ∧ f = r.fase then m a f + r.cantidad else m a f

/-- The WIP part of `_prepare_context` (lines 130-142): fold the rows into
the nested per-article per-phase map, starting from the all-zero default. -/
def buildWip (rows : List WipRecord) : String → Int → ℚ :=
  rows.foldl wipAdd fun _ _ => 0

/-! ### Helper lemmas -/

lemma necesidadNetaFG_eq_of_lt {stock_fg total_demanda punto_pedido : ℚ}
    (h : stock_fg - total_demanda < punto_pedido) :
    necesidadNetaFG stock_fg total_demanda punto_pedido =
      max 0 (total_demanda - stock_fg) := by
  unfold necesidadNetaFG
  rw [if_pos h]
  rcases le_or_lt total_demanda stock_fg with hle | hlt
  · rw [min_eq_left (by linarith), abs_zero, if_pos le_rfl, if_neg (not_lt.mpr hle)]
    exact (max_eq_left (by linarith)).symm
  · rw [min_eq_right (by linarith), abs_of_neg (by linarith),
      if_neg (not_le.mpr (by linarith)), max_eq_right (by linarith)]
    ring

lemma necesidadNetaFG_eq_of_not_lt {stock_fg total_demanda punto_pedido : ℚ}
    (h : ¬ stock_fg - total_demanda < punto_pedido) :
    necesidadNetaFG stock_fg total_demanda punto_pedido = 0 := by
  unfold necesidadNetaFG
  rw [if_neg h]

lemma necesidadNetaFG_nonneg (stock_fg total_demanda punto_pedido : ℚ) :
    0 ≤ necesidadNetaFG stock_fg total_demanda punto_pedido := by
  simp only [necesidadNetaFG]
  split_ifs with h1 h2 h3 <;> first | positivity | linarith

lemma calculateArticleMrp_eq_empty {now : Int} {articulo : String}
    {demandas : List Demanda} {context : Context}
    (h : necesidadNetaFG (context.stock articulo) (totalDemanda demandas)
      ((context.lotes articulo).getD ⟨0, 0, ""⟩).punto_pedido ≤ 0) :
    calculateArticleMrp now articulo demandas context = emptyResult := by
  by_cases h1 : totalDemanda demandas ≤ 0
  · simp [calculateArticleMrp, h1]
  · simp [calculateArticleMrp, h1, h]

/-! ### Claim theorems -/

/-- C1: for every article, when the projected stock (stock minus total
demand) is below the reorder point the computed net finished-goods
requirement equals `max(0, totalDemand - stock)`, and otherwise it is `0`;
the requirement is never negative; and whenever it is `≤ 0` the
per-article planner returns the empty result (no orders, no center
load). -/
theorem c1_net_requirement (now : Int) (articulo : String) (demandas : List Demanda)
    (context : Context) :
    (context.stock articulo - totalDemanda demandas <
        ((context.lotes articulo).getD ⟨0, 0, ""⟩).punto_pedido →
      necesidadNetaFG (context.stock articulo) (totalDemanda demandas)
          ((context.lotes articulo).getD ⟨0, 0, ""⟩).punto_pedido =
        max 0 (totalDemanda demandas - context.stock articulo)) ∧
    (¬ context.stock articulo - totalDemanda demandas <
        ((context.lotes articulo).getD ⟨0, 0, ""⟩).punto_pedido →
      necesidadNetaFG (context.stock articulo) (totalDemanda demandas)
          ((context.lotes articulo).getD ⟨0, 0, ""⟩).punto_pedido = 0) ∧
    0 ≤ necesidadNetaFG (context.stock articulo) (totalDemanda demandas)
        ((context.lotes articulo).getD ⟨0, 0, ""⟩).punto_pedido ∧
    (necesidadNetaFG (context.stock articulo) (totalDemanda demandas)
        ((context.lotes articulo).getD ⟨0, 0, ""⟩).punto_pedido ≤ 0 →
      calculateArticleMrp now articulo demandas context = emptyResult) :=
  ⟨fun h => necesidadNetaFG_eq_of_lt h,
   fun h => necesidadNetaFG_eq_of_not_lt h,
   necesidadNetaFG_nonneg _ _ _,
   fun h => calculateArticleMrp_eq_empty h⟩

/-- Concrete context used by the witnesses: stock 20 for every article, no
routes, lot policy (lot 80, reorder point 10), no capacity records, no
WIP. -/
def ctxA : Context :=
  { stock := fun _ => 20
    rutas := fun _ => []
    lotes := fun _ => some ⟨80, 10, "MP1"⟩
    capacidad := fun _ => none
    wip := fun _ _ => 0 }

theorem c1_net_requirement_witness :
    necesidadNetaFG (ctxA.stock "A1") (totalDemanda [⟨150, some 5, "P1"⟩])
        ((ctxA.lotes "A1").getD ⟨0, 0, ""⟩).punto_pedido =
      max 0 (totalDemanda [⟨150, some 5, "P1"⟩] - ctxA.stock "A1") :=
  (c1_net_requirement 0 "A1" [⟨150, some 5, "P1"⟩] ctxA).1
    (by norm_num [ctxA, totalDemanda])

/-- C3: for a positive head-phase requirement, a positive lot size `L`
makes the launch quantity an exact multiple of `L` that is at least the
raw head requirement (rounding up), while lot size `0` leaves the head
requirement unchanged. -/
theorem c3_lot_rounding (necesidad_cabecera lote_std : ℚ)
    (_hpos : 0 < necesidad_cabecera) :
    (0 < lote_std →
      (∃ k : Int, cantidadLanzamiento necesidad_cabecera lote_std = (k : ℚ) * lote_std) ∧
      necesidad_cabecera ≤ cantidadLanzamiento necesidad_cabecera lote_std) ∧
    (lote_std = 0 →
      cantidadLanzamiento necesidad_cabecera lote_std = necesidad_cabecera) := by
  constructor
  · intro hl
    unfold cantidadLanzamiento
    rw [if_pos hl]
    refine ⟨⟨⌈necesidad_cabecera / lote_std⌉, rfl⟩, ?_⟩
    calc necesidad_cabecera = necesidad_cabecera / lote_std * lote_std := by
          field_simp
      _ ≤ (⌈necesidad_cabecera / lote_std⌉ : ℚ) * lote_std :=
          mul_le_mul_of_nonneg_right (Int.le_ceil _) hl.le
  · intro hl
    unfold cantidadLanzamiento
    rw [if_neg (by rw [hl]; exact lt_irrefl 0)]

theorem c3_lot_rounding_witness :
    (∃ k : Int, cantidadLanzamiento 90 80 = (k : ℚ) * 80) ∧
      (90 : ℚ) ≤ cantidadLanzamiento 90 80 :=
  (c3_lot_rounding 90 80 (by norm_num)).1 (by norm_num)

/-- C5 (code bug evidence): the except block of lines 366-372 re-runs the
full batch on top of the accumulators already filled by the try block,
which are never cleared.  With two demanded articles and a pool failure
raised after the first result was yielded and merged, the fallback output
contains the first article's order twice, while the parallel path
produces each order exactly once — so the claimed exact equivalence (no
order lost, duplicated, or reordered) fails on the code. -/
theorem c5_pool_failure_duplicates :
    (mergePhase 0 ctxA (.raisesAfter 1 "BrokenProcessPool")
        [⟨"A1", [⟨150, some 5, "P1"⟩]⟩, ⟨"A2", [⟨150, some 5, "P2"⟩]⟩]).1 =
      [⟨"OF-ERR-A1", "A1", "SIN_RUTA", 0, 130, none, "ERROR_RUTA", 0, 0, none, 0⟩,
       ⟨"OF-ERR-A1", "A1", "SIN_RUTA", 0, 130, none, "ERROR_RUTA", 0, 0, none, 0⟩,
       ⟨"OF-ERR-A2", "A2", "SIN_RUTA", 0, 130, none, "ERROR_RUTA", 0, 0, none, 0⟩] ∧
    (runParallel 0 ctxA
        [⟨"A1", [⟨150, some 5, "P1"⟩]⟩, ⟨"A2", [⟨150, some 5, "P2"⟩]⟩]).1 =
      [⟨"OF-ERR-A1", "A1", "SIN_RUTA", 0, 130, none, "ERROR_RUTA", 0, 0, none, 0⟩,
       ⟨"OF-ERR-A2", "A2", "SIN_RUTA", 0, 130, none, "ERROR_RUTA", 0, 0, none, 0⟩] := by
  have hart : ∀ art p, calculateArticleMrp 0 art [⟨150, some 5, p⟩] ctxA =
      ordenGenerica art 130 5 := by
    intro art p
    have hne : necesidadNetaFG (ctxA.stock art) (totalDemanda [⟨150, some 5, p⟩])
        ((ctxA.lotes art).getD ⟨0, 0, ""⟩).punto_pedido = 130 := by
      rw [necesidadNetaFG_eq_of_lt (by norm_num [ctxA, totalDemanda])]
      norm_num [ctxA, totalDemanda, max_def]
    have hpos : 0 < necesidadNetaFG (ctxA.stock art) (totalDemanda [⟨150, some 5, p⟩])
        ((ctxA.lotes art).getD ⟨0, 0, ""⟩).punto_pedido := by
      rw [hne]; norm_num
    have h1 : ¬ totalDemanda [(⟨150, some 5, p⟩ : Demanda)] ≤ 0 := by
      norm_num [totalDemanda]
    have h2 : ctxA.rutas art = [] := rfl
    have hgen : calculateArticleMrp 0 art [⟨150, some 5, p⟩] ctxA =
        ordenGenerica art
          (necesidadNetaFG (ctxA.stock art) (totalDemanda [⟨150, some 5, p⟩])
            ((ctxA.lotes art).getD ⟨0, 0, ""⟩).punto_pedido)
          ((([⟨150, some 5, p⟩] : List Demanda).filterMap
            (·.fecha_entrega)).min?.getD (0 + 30)) := by
      simp only [calculateArticleMrp, h1, h2, not_le.mpr hpos, if_false, if_true]
    rw [hgen, hne]
    rfl
  constructor
  · simp [mergePhase, mergeStep, hart "A1" "P1", hart "A2" "P2", ordenGenerica]
  · simp [runParallel, mergeStep, hart "A1" "P1", hart "A2" "P2", ordenGenerica]

/-- C8: an article with a positive total demand, a positive net
finished-goods requirement and no route in the context produces exactly
the generic fallback result: one order flagged `ERROR_RUTA` on the
synthetic center `SIN_RUTA` carrying the full net requirement with zero
load hours, and an empty center-load map. -/
theorem c8_unrouted (now : Int) (articulo : String) (demandas : List Demanda)
    (context : Context)
    (htd : 0 < totalDemanda demandas)
    (hroute : context.rutas articulo = [])
    (hpos : 0 < necesidadNetaFG (context.stock articulo) (totalDemanda demandas)
      ((context.lotes articulo).getD ⟨0, 0, ""⟩).punto_pedido) :
    calculateArticleMrp now articulo demandas context =
      ordenGenerica articulo
        (necesidadNetaFG (context.stock articulo) (totalDemanda demandas)
          ((context.lotes articulo).getD ⟨0, 0, ""⟩).punto_pedido)
        ((demandas.filterMap (·.fecha_entrega)).min?.getD (now + 30)) ∧
    (calculateArticleMrp now articulo demandas context).ordenes.length = 1 ∧
    (∀ o ∈ (calculateArticleMrp now articulo demandas context).ordenes,
      o.estado = "ERROR_RUTA" ∧ o.centro = "SIN_RUTA" ∧
      o.cantidad = necesidadNetaFG (context.stock articulo) (totalDemanda demandas)
        ((context.lotes articulo).getD ⟨0, 0, ""⟩).punto_pedido ∧
      o.carga_horas = 0) ∧
    (calculateArticleMrp now articulo demandas context).carga = [] := by
  have heq : calculateArticleMrp now articulo demandas context =
      ordenGenerica articulo
        (necesidadNetaFG (context.stock articulo) (totalDemanda demandas)
          ((context.lotes articulo).getD ⟨0, 0, ""⟩).punto_pedido)
        ((demandas.filterMap (·.fecha_entrega)).min?.getD (now + 30)) := by
    simp [calculateArticleMrp, not_le.mpr htd, not_le.mpr hpos, hroute]
  refine ⟨heq, ?_, ?_, ?_⟩ <;> rw [heq] <;> simp [ordenGenerica]

theorem c8_unrouted_witness :
    (calculateArticleMrp 0 "A1" [⟨150, some 5, "P1"⟩] ctxA).ordenes.length = 1 ∧
    (calculateArticleMrp 0 "A1" [⟨150, some 5, "P1"⟩] ctxA).carga = [] :=
  ⟨(c8_unrouted 0 "A1" [⟨150, some 5, "P1"⟩] ctxA
      (by norm_num [totalDemanda]) rfl
      (by rw [necesidadNetaFG_eq_of_lt (by norm_num [ctxA, totalDemanda])]
          norm_num [ctxA, totalDemanda])).2.1,
   (c8_unrouted 0 "A1" [⟨150, some 5, "P1"⟩] ctxA
      (by norm_num [totalDemanda]) rfl
      (by rw [necesidadNetaFG_eq_of_lt (by norm_num [ctxA, totalDemanda])]
          norm_num [ctxA, totalDemanda])).2.2.2⟩

/-- The worker computation used to exhibit the missing per-article failure
isolation: planning article `A1` raises (as Python does, e.g.
`math.ceil(inf / lote)` raising `OverflowError` when a demand quantity
parses to infinity) while every other article succeeds. -/
def calcFailsA1 : WorkerArgs → Except String ArticleResult :=
  fun a => if a.articulo = "A1" then .error "OverflowError" else .ok emptyResult

/-- C9 (code bug evidence): with a two-article batch whose first article's
planning raises, the orchestrator of lines 359-372 propagates the
exception out of the whole computation — the parallel path surfaces the
worker exception, the sequential fallback re-raises it — so the healthy
second article's plan is lost and no flagged per-article error order is
produced, contradicting the claimed isolation. -/
theorem c9_failure_aborts_batch :
    orchestrate calcFailsA1 [⟨"A1", []⟩, ⟨"A2", []⟩] = .error "OverflowError" := by
  rfl

/-- C10: the context builder sums the quantities of all raw WIP rows that
share the same (article, phase) pair, so a lookup returns the total WIP
staged at that phase. -/
theorem c10_wip_sum (rows : List WipRecord) (articulo : String) (fase : Int) :
    buildWip rows articulo fase =
      ((rows.filter fun r => r.articulo == articulo && r.fase == fase).map
        (·.cantidad)).sum := by
  have key : ∀ (l : List WipRecord) (m : String → Int → ℚ),
      l.foldl wipAdd m articulo fase =
        m articulo fase +
          ((l.filter fun r => r.articulo == articulo && r.fase == fase).map
            (·.cantidad)).sum := by
    intro l
    induction l with
    | nil => intro m; simp
    | cons r rs ih =>
      intro m
      rw [List.foldl_cons, ih, List.filter_cons]
      simp only [wipAdd]
      by_cases h : articulo = r.articulo ∧ fase = r.fase
      · rw [if_pos h, if_pos (by rw [← h.1, ← h.2]; simp)]
        simp only [List.map_cons, List.sum_cons]
        ring
      · rw [if_neg h, if_neg ?_]
        simp only [Bool.and_eq_true, beq_iff_eq, not_and]
        intro hra hrf
        exact absurd ⟨hra.symm, hrf.symm⟩ h
  unfold buildWip
  rw [key]
  simp

lemma scanl_ne_nil (f : ℚ → RutaOp → ℚ) (l : List RutaOp) (c : ℚ) :
    l.scanl f c ≠ [] := by
  cases l <;> simp [List.scanl]

lemma scanl_head? (f : ℚ → RutaOp → ℚ) (l : List RutaOp) (c : ℚ) :
    (l.scanl f c).head? = some c := by
  cases l <;> simp [List.scanl]

lemma scanl_getLast? (f : ℚ → RutaOp → ℚ) :
    ∀ (l : List RutaOp) (c : ℚ), (l.scanl f c).getLast? = some (l.foldl f c) := by
  intro l
  induction l with
  | nil => intro c; rfl
  | cons op l ih =>
    intro c
    rw [List.scanl_cons, List.foldl_cons, List.singleton_append]
    rw [List.getLast?_cons, ih]
    cases h : l.scanl f (f c op) with
    | nil => exact absurd h (scanl_ne_nil f l (f c op))
    | cons b bs => simp [List.getLast?_cons]

lemma backwardStep_le (wip_per_fase : Int → ℚ) (hw : ∀ f, 0 ≤ wip_per_fase f)
    (c : ℚ) (hc : 0 ≤ c) (op : RutaOp) : backwardStep wip_per_fase c op ≤ c := by
  unfold backwardStep
  rcases le_total (c - wip_per_fase op.fase) 0 with h | h
  · rw [max_eq_left h]; exact hc
  · rw [max_eq_right h]; linarith [hw op.fase]

lemma backward_scanl_chain (wip_per_fase : Int → ℚ) (hw : ∀ f, 0 ≤ wip_per_fase f) :
    ∀ (l : List RutaOp) (c : ℚ), 0 ≤ c →
      (l.scanl (backwardStep wip_per_fase) c).Chain' (fun a b => b ≤ a) := by
  intro l
  induction l with
  | nil => intro c _; simp [List.scanl]
  | cons op l ih =>
    intro c hc
    rw [List.scanl_cons, List.singleton_append]
    rw [List.chain'_cons']
    refine ⟨?_, ih _ (le_max_left _ _)⟩
    intro y hy
    rw [scanl_head? _ l _] at hy
    cases hy
    exact backwardStep_le wip_per_fase hw c hc op

/-- C2: for a routed article with a positive net finished-goods
requirement and nonnegative WIP quantities, the backward pass visits the
phases in descending phase-number order; the sequence of carried-need
values (traced by `scanl` of `backwardStep`) is monotonically
non-increasing; its final value is exactly the head-phase launch
requirement computed by `backwardPass`; and whenever that value is `≤ 0`
the planner returns the empty result. -/
theorem c2_backward_pass (now : Int) (articulo : String) (demandas : List Demanda)
    (context : Context)
    (hwip : ∀ f, 0 ≤ context.wip articulo f)
    (hroute : context.rutas articulo ≠ [])
    (hpos : 0 < necesidadNetaFG (context.stock articulo) (totalDemanda demandas)
      ((context.lotes articulo).getD ⟨0, 0, ""⟩).punto_pedido) :
    ((context.rutas articulo).insertionSort faseGe).Pairwise faseGe ∧
    (((context.rutas articulo).insertionSort faseGe).scanl
        (backwardStep (context.wip articulo))
        (necesidadNetaFG (context.stock articulo) (totalDemanda demandas)
          ((context.lotes articulo).getD ⟨0, 0, ""⟩).punto_pedido)).Chain'
      (fun a b => b ≤ a) ∧
    (((context.rutas articulo).insertionSort faseGe).scanl
        (backwardStep (context.wip articulo))
        (necesidadNetaFG (context.stock articulo) (totalDemanda demandas)
          ((context.lotes articulo).getD ⟨0, 0, ""⟩).punto_pedido)).getLast? =
      some (backwardPass (context.wip articulo)
        ((context.rutas articulo).insertionSort faseGe)
        (necesidadNetaFG (context.stock articulo) (totalDemanda demandas)
          ((context.lotes articulo).getD ⟨0, 0, ""⟩).punto_pedido)) ∧
    (backwardPass (context.wip articulo) ((context.rutas articulo).insertionSort faseGe)
        (necesidadNetaFG (context.stock articulo) (totalDemanda demandas)
          ((context.lotes articulo).getD ⟨0, 0, ""⟩).punto_pedido) ≤ 0 →
      calculateArticleMrp now articulo demandas context = emptyResult) := by
  refine ⟨List.sorted_insertionSort faseGe _, ?_, scanl_getLast? _ _ _, ?_⟩
  · exact backward_scanl_chain _ hwip _ _ hpos.le
  · intro hcab
    by_cases h1 : totalDemanda demandas ≤ 0
    · simp [calculateArticleMrp, h1]
    · simp [calculateArticleMrp, h1, not_le.mpr hpos, hroute, hcab]

lemma lookupD_dictAdd (m : List (String × ℚ)) (c c' : String) (h : ℚ) :
    lookupD (dictAdd m c h) c' = lookupD m c' + if c' = c then h else 0 := by
  induction m with
  | nil =>
    simp only [dictAdd, lookupD]
    by_cases h1 : c = c'
    · subst h1; simp
    · rw [if_neg h1, if_neg (fun hh => h1 hh.symm)]
      norm_num
  | cons p rest ih =>
    obtain ⟨k, v⟩ := p
    simp only [dictAdd]
    by_cases h1 : k = c
    · subst h1
      rw [if_pos rfl]
      simp only [lookupD]
      by_cases h2 : k = c'
      · subst h2
        rw [if_pos rfl, if_pos rfl, if_pos rfl]
      · rw [if_neg h2, if_neg h2, if_neg (fun hh => h2 hh.symm)]
        ring
    · rw [if_neg h1]
      simp only [lookupD]
      by_cases h2 : k = c'
      · subst h2
        rw [if_pos rfl, if_pos rfl, if_neg h1]
        ring
      · rw [if_neg h2, if_neg h2, ih]

/-- The center-load accumulation of the forward pass loop alone: fold of
`cargaStep` over the route. -/
def cargaFold (flujo_cantidad : ℚ) (l : List RutaOp) (m : List (String × ℚ)) :
    List (String × ℚ) :=
  l.foldl (cargaStep flujo_cantidad) m

lemma lookupD_cargaFold (flujo : ℚ) (c : String) (hc : c ≠ "") :
    ∀ (l : List RutaOp) (m : List (String × ℚ)),
      lookupD (cargaFold flujo l m) c =
        lookupD m c + ((l.filter fun op => op.centro == c).map (cargaHorasOp flujo)).sum := by
  intro l
  induction l with
  | nil => intro m; simp [cargaFold]
  | cons op l ih =>
    intro m
    rw [show cargaFold flujo (op :: l) m = cargaFold flujo l (cargaStep flujo m op) from rfl,
      ih, List.filter_cons]
    by_cases h1 : op.centro = ""
    · rw [if_neg (show ¬ (op.centro == c) = true from by
        simp only [beq_iff_eq, h1]; exact fun hh => hc hh.symm)]
      rw [show cargaStep flujo m op = m from by rw [cargaStep, if_pos h1]]
    · rw [show cargaStep flujo m op = dictAdd m op.centro (cargaHorasOp flujo op) from
        by rw [cargaStep, if_neg h1]]
      rw [lookupD_dictAdd]
      by_cases h2 : op.centro = c
      · rw [if_pos h2.symm, if_pos (show (op.centro == c) = true from by
          simp only [beq_iff_eq]; exact h2)]
        simp only [List.map_cons, List.sum_cons]
        ring
      · rw [if_neg (fun hh => h2 hh.symm), if_neg (show ¬ (op.centro == c) = true from by
          simp only [beq_iff_eq]; exact h2)]
        ring

lemma forwardPass_foldl (articulo mp : String) (fecha dias : Int) (estado : String)
    (flujo : ℚ) (hf : 0 < flujo) :
    ∀ (l : List RutaOp) (os : List Orden) (m : List (String × ℚ)),
      l.foldl (fwdStep articulo mp fecha dias estado flujo) (os, m) =
        (os ++ l.map (mkOrden articulo mp fecha dias estado flujo), cargaFold flujo l m) := by
  intro l
  induction l with
  | nil => intro os m; simp [cargaFold]
  | cons op l ih =>
    intro os m
    rw [List.foldl_cons,
      show fwdStep articulo mp fecha dias estado flujo (os, m) op =
        (os ++ [mkOrden articulo mp fecha dias estado flujo op], cargaStep flujo m op) from
        by simp [fwdStep, hf],
      ih,
      show cargaFold flujo (op :: l) m = cargaFold flujo l (cargaStep flujo m op) from rfl]
    simp

/-- C4: with a positive launch quantity, the forward pass emits exactly one
order per phase of the ascending route, each carrying the launch quantity
unchanged; the execution time of a phase is `quantity / hourlyRate × 60`
minutes (0 when the rate is not positive), its load is
`(setup + execution) / 60` hours; and for every (non-empty-named) center
the accumulated load equals the sum of those load hours over the phases
assigned to that center. -/
theorem c4_forward_pass (articulo mp : String) (fecha dias : Int) (estado : String)
    (flujo : ℚ) (rutas_asc : List RutaOp) (hf : 0 < flujo) :
    (forwardPass articulo mp fecha dias estado flujo rutas_asc).1 =
      rutas_asc.map (mkOrden articulo mp fecha dias estado flujo) ∧
    (∀ o ∈ (forwardPass articulo mp fecha dias estado flujo rutas_asc).1,
      o.cantidad = flujo) ∧
    (∀ op : RutaOp, 0 < op.prod_horaria →
      tEjecucion flujo op = flujo / op.prod_horaria * 60) ∧
    (∀ op : RutaOp, ¬ 0 < op.prod_horaria → tEjecucion flujo op = 0) ∧
    (∀ op : RutaOp, cargaHorasOp flujo op = (op.t_prep + tEjecucion flujo op) / 60) ∧
    (∀ c, c ≠ "" →
      lookupD (forwardPass articulo mp fecha dias estado flujo rutas_asc).2 c =
        ((rutas_asc.filter fun op => op.centro == c).map (cargaHorasOp flujo)).sum) := by
  have hfp : forwardPass articulo mp fecha dias estado flujo rutas_asc =
      (rutas_asc.map (mkOrden articulo mp fecha dias estado flujo),
       cargaFold flujo rutas_asc []) := by
    rw [forwardPass, forwardPass_foldl articulo mp fecha dias estado flujo hf]
    simp
  refine ⟨by rw [hfp], ?_, fun op h => by simp [tEjecucion, h], fun op h => by
    simp [tEjecucion, h], fun op => rfl, ?_⟩
  · intro o ho
    rw [hfp] at ho
    simp only [List.mem_map] at ho
    obtain ⟨op, _, rfl⟩ := ho
    rfl
  · intro c hc
    rw [hfp]
    rw [lookupD_cargaFold flujo c hc rutas_asc []]
    simp [lookupD]

/-- Route operation of the witness scenario: phase 10 on center C1,
setup 30 min, 60 units/hour. -/
def opC1 : RutaOp := ⟨"C1", 10, 30, 60⟩

/-- Route operation of the witness scenario: phase 20 on center C2,
setup 15 min, 30 units/hour. -/
def opC2 : RutaOp := ⟨"C2", 20, 15, 30⟩

/-- Concrete routed context used by the witnesses (the scenario of the
spec): stock 20, route `[opC1, opC2]`, lot 80 / reorder point 10, WIP 40
staged at phase 20. -/
def ctxB : Context :=
  { stock := fun _ => 20
    rutas := fun _ => [opC1, opC2]
    lotes := fun _ => some ⟨80, 10, "MP1"⟩
    capacidad := fun _ => none
    wip := fun _ f => if f = 20 then 40 else 0 }

theorem c2_backward_pass_witness :
    ((ctxB.rutas "A1").insertionSort faseGe).Pairwise faseGe :=
  (c2_backward_pass 0 "A1" [⟨150, some 5, "P1"⟩] ctxB
    (fun f => by simp only [ctxB]; split_ifs <;> norm_num)
    (by simp [ctxB])
    (by rw [necesidadNetaFG_eq_of_lt (by norm_num [ctxB, totalDemanda])]
        norm_num [ctxB, totalDemanda, lt_max_iff])).1

theorem c4_forward_pass_witness :
    (forwardPass "A1" "MP1" 5 5 "URGENTE" 160 [opC1, opC2]).1 =
      [opC1, opC2].map (mkOrden "A1" "MP1" 5 5 "URGENTE" 160) :=
  (c4_forward_pass "A1" "MP1" 5 5 "URGENTE" 160 [opC1, opC2] (by norm_num)).1

/-- C6: the final order list is the stable sort of the merged orders by
the key (urgent before normal, then ascending days-remaining): the sorted
output is pairwise ordered by `ordenLe`; any two orders with equal
`estado` and equal days-remaining retain their relative order from the
input; and the sequencing step then assigns each order the 1-based index
of its position. -/
theorem c6_stable_sort (l : List Orden) :
    (sortOrdenes l).Pairwise ordenLe ∧
    (∀ a b : Orden, a.estado = b.estado → a.dias_restantes = b.dias_restantes →
      [a, b].Sublist l → [a, b].Sublist (sortOrdenes l)) ∧
    ∀ i (h : i < (asignarSecuencia (sortOrdenes l)).length),
      ((asignarSecuencia (sortOrdenes l)).get ⟨i, h⟩).orden = i + 1 := by
  refine ⟨List.sorted_insertionSort ordenLe l, ?_, ?_⟩
  · intro a b he hd hsub
    exact List.pair_sublist_insertionSort
      (Or.inl ⟨by simp [normFlag, he], le_of_eq hd⟩) hsub
  · intro i h
    simp [asignarSecuencia]

/-- Two urgent orders with equal key, to exercise stability. -/
def ordA : Orden :=
  ⟨"OF-SIM-A1-10", "A1", "C1", 10, 160, some 5, "URGENTE", 5, 3, some "MP1", 0⟩

/-- Second urgent order with the same sort key as `ordA`. -/
def ordB : Orden :=
  ⟨"OF-SIM-A2-10", "A2", "C2", 10, 80, some 5, "URGENTE", 5, 2, some "MP1", 0⟩

theorem c6_stable_sort_witness : [ordA, ordB].Sublist (sortOrdenes [ordA, ordB]) :=
  (c6_stable_sort [ordA, ordB]).2.1 ordA ordB rfl rfl (List.Sublist.refl _)

/-- C7: each saturation row's available capacity is hours-per-day times
shifts (plus one when the extra-shift flag is set) times the horizon,
defaulting to 8 hours / 1 shift when the center has no capacity record;
the saturation percentage is `required/available × 100`, and exactly 0
when the available capacity is 0 (a total function, never an exception);
the bottleneck flag is set iff the unrounded percentage exceeds 100; and
the emitted rows are sorted descending by their stored saturation
percentage. -/
theorem c7_saturation (capacidad : String → Option Capacidad) (turno_extra : Bool)
    (horizonte_dias : Int) (carga_total : List (String × ℚ)) :
    (∀ cap : Capacidad, capDisponible cap turno_extra horizonte_dias =
      cap.horas * ((cap.turnos : ℚ) + (if turno_extra then 1 else 0)) *
        (horizonte_dias : ℚ)) ∧
    (∀ centro, capacidad centro = none → capacidadLookup capacidad centro = ⟨8, 1⟩) ∧
    (∀ horas_req : ℚ, satPct horas_req 0 = 0) ∧
    (∀ horas_req cap_disp : ℚ, 0 < cap_disp →
      satPct horas_req cap_disp = horas_req / cap_disp * 100) ∧
    (∀ p : String × ℚ,
      (mkSatRow capacidad turno_extra horizonte_dias p).es_cuello_botella = true ↔
        100 < satPct p.2
          (capDisponible (capacidadLookup capacidad p.1) turno_extra horizonte_dias)) ∧
    (saturacionList capacidad turno_extra horizonte_dias carga_total).Pairwise satGe := by
  refine ⟨fun _ => rfl, ?_, ?_, ?_, ?_, List.sorted_insertionSort satGe _⟩
  · intro centro h
    simp [capacidadLookup, h]
  · intro horas_req
    simp [satPct]
  · intro horas_req cap_disp h
    simp [satPct, h]
  · intro p
    simp [mkSatRow]

theorem c7_saturation_witness :
    satPct 5 240 = 5 / 240 * 100 :=
  (c7_saturation (fun _ => none) false 30 []).2.2.2.1 5 240 (by norm_num)

end Calculator
